/-
Verification of the BetaBarn real-time translation / audio-playback core.

Shallow embedding of:
  * src/assets/js/speech/textToSpeechService.js
      (audio queue scheduler: _enqueueAndPlay, speakQueued, synthesize, stop)
  * src/functions/services/llm/geminiService.js
      (GeminiService.translateStream, GeminiService.fetchWithRetry)
  * src/functions/translateStream.js (exports.handler, SSE body assembly)
  * src/assets/js/token/accessTokenService.js (client token cache)
  * src/functions/services/tokenService.js (server provider registry)

JS strings used structurally are embedded as `List Char`; audio-clock
times and buffer durations (JS numbers holding seconds) as `ℚ`;
millisecond timestamps and delays as `ℕ`.
-/
import Mathlib

/-- JS strings handled structurally (slice/trim/length) are lists of chars. -/
abbrev Str := List Char

namespace TTS

/-
textToSpeechService.js, constructor (line 365): `this.lastQueuedEndTime = 0`.
The only persistent scheduler state is this watermark.
-/
structure SchedState where
  lastQueuedEndTime : ℚ
deriving Repr, DecidableEq

/-- Line 715: the fixed pad `0.25` s added after every scheduled buffer. -/
def guardInterval : ℚ := 1/4

structure Segment where
  scheduledStart : ℚ
  duration : ℚ
deriving Repr, DecidableEq

/-
_enqueueAndPlay (lines 701-716):
  const now = this.audioContext.currentTime;
  const bufferDuration = decodedBuffer.duration;
  const startTime = Math.max(now, this.lastQueuedEndTime);
  source.start(startTime, 0, bufferDuration);
  this.lastQueuedEndTime = startTime + bufferDuration + 0.25;
`now` (the audio clock) and `dur` (the decoded buffer's duration) are inputs.
-/
def enqueueAndPlay (now dur : ℚ) (s : SchedState) : Segment × SchedState :=
  let startTime := max now s.lastQueuedEndTime
  ({ scheduledStart := startTime, duration := dur },
   { lastQueuedEndTime := startTime + dur + guardInterval })

/-- A sequence of `_enqueueAndPlay` calls; each call supplies the audio clock
reading at call time and the decoded buffer's duration. -/
def runEnqueues : List (ℚ × ℚ) → SchedState → List Segment × SchedState
  | [], s => ([], s)
  | c :: rest, s =>
    let r := enqueueAndPlay c.1 c.2 s
    let rr := runEnqueues rest r.2
    (r.1 :: rr.1, rr.2)

/-
stop (lines 736-751): `this.lastQueuedEndTime = 0;` (the synthesizer close and
the audioContext suspend/resume are device effects with no scheduler state).
-/
def stop (_s : SchedState) : SchedState :=
  { lastQueuedEndTime := 0 }

/-
synthesize (lines 563-570):
  if (!this.isInitialized) throw "TextToSpeechService not initialized...";
  if (!text || text.trim().length === 0) throw "Text cannot be empty";
  ... otherwise the Azure SDK call, whose outcome is the `backend` oracle.
-/

/-- JS `String.prototype.trim`: strip leading and trailing whitespace. -/
def jsTrim (s : Str) : Str :=
  ((s.dropWhile Char.isWhitespace).reverse.dropWhile Char.isWhitespace).reverse

def synthesize {α : Type} (text : Str) (isInitialized : Bool)
    (backend : Except String α) : Except String α :=
  if isInitialized = false then
    Except.error "TextToSpeechService not initialized. Call init() first."
  else if text.isEmpty || (jsTrim text).isEmpty then
    Except.error "Text cannot be empty"
  else backend

/-
speakQueued (lines 662-679):
  if (!text || !text.trim()) return;
  ...
  try { audioData = await synthesize(...); decoded = await _decodeAudio(audioData);
        this._enqueueAndPlay(decoded); }
  catch (error) { throw error; }
Result: the value delivered to the caller (`none` = resolved with no segment,
`some seg` = a segment was scheduled, `.error` = the promise rejected),
the scheduler state after the call, and whether synthesis was invoked.
-/
def speakQueued {α : Type} (text : Str) (isInitialized : Bool)
    (backend : Except String α) (decode : α → Except String ℚ)
    (now : ℚ) (s : SchedState) :
    Except String (Option Segment) × SchedState × Bool :=
  if text.isEmpty || (jsTrim text).isEmpty then
    (Except.ok none, s, false)
  else
    match synthesize text isInitialized backend with
    | Except.error e => (Except.error e, s, true)
    | Except.ok audio =>
      match decode audio with
      | Except.error e => (Except.error e, s, true)
      | Except.ok dur =>
        let r := enqueueAndPlay now dur s
        (Except.ok (some r.1), r.2, true)

end TTS

namespace Gemini

/-
src/functions/services/llm/geminiService.js
-/

/-- A fetch response; `ok` is the WHATWG fetch `Response.ok`
(status in [200, 300)). -/
structure HttpResponse where
  status : Nat
  statusText : String
deriving Repr, DecidableEq

def HttpResponse.ok (r : HttpResponse) : Bool :=
  decide (200 ≤ r.status) && decide (r.status < 300)

/-- The retry guard of fetchWithRetry (line 57):
`response.status === 429 || response.status >= 500`. -/
def HttpResponse.transientStatus (r : HttpResponse) : Bool :=
  decide (r.status = 429) || decide (500 ≤ r.status)

/-
fetchWithRetry (lines 52-67):
  async fetchWithRetry(url, options, retries = 5, delay = 1000) {
    for (let i = 0; i < retries; i++) {
      const response = await fetch(url, options);
      if (response.ok) return response;
      if (response.status === 429 || response.status >= 500) {
        await new Promise(...)  // sleep `delay` ms
        delay *= 2;
      } else {
        throw new Error(`API Error: ${response.status} ${response.statusText}`);
      }
    }
    throw new Error(`API request failed after multiple retries.`);
  }
`fetch` is the network oracle mapping the attempt number (loop index `i`)
to a response.  The second component records the sleeps performed, in order.
-/
def fetchLoop (fetch : Nat → HttpResponse) (i : Nat) :
    Nat → Nat → Except String HttpResponse × List Nat
  | 0, _ => (Except.error "API request failed after multiple retries.", [])
  | fuel + 1, delay =>
    let response := fetch i
    if response.ok then (Except.ok response, [])
    else if response.transientStatus then
      let r := fetchLoop fetch (i + 1) fuel (delay * 2)
      (r.1, delay :: r.2)
    else
      (Except.error ("API Error: " ++ toString response.status ++ " "
        ++ response.statusText), [])

def fetchWithRetry (fetch : Nat → HttpResponse) :
    Except String HttpResponse × List Nat :=
  fetchLoop fetch 0 5 1000

/-- The user-facing fallback text of translateStream's catch block (line 46):
`onChunk("Sorry, an error occurred during translation.")`. -/
def fallbackMessage : Str := "Sorry, an error occurred during translation.".toList

/-- One delivery to the `onChunk` callback.  The handler's callback signature
is `(currentText, isDone = false)`; `translateStream` always invokes
`onChunk(fullText)` with a single argument, so `isFinal` records the `isDone`
value the callback observes. -/
structure GenEvent where
  text : Str
  isFinal : Bool
deriving Repr, DecidableEq

/-
translateStream (lines 13-50), streaming loop:
      while ((match = regex.exec(chunk)) !== null) {
        const textPart = JSON.parse(`...`);
        fullText += textPart;
        onChunk(fullText);
      }
`parts` are the text parts extracted from the upstream body before the call
either completes or throws.
-/
def emitParts (fullText : Str) : List Str → List GenEvent × Str
  | [] => ([], fullText)
  | p :: ps =>
    let ft := fullText ++ p
    let r := emitParts ft ps
    ({ text := ft, isFinal := false } :: r.1, r.2)

/-
translateStream (lines 20-49): the try/catch around the fetch and read loop:
    } catch (error) {
      onChunk("Sorry, an error occurred during translation.");
      fullText = "Error";
    }
    return fullText;
`failed = true` models any unrecoverable upstream failure (fetch rejection
after retries, or a mid-stream read error after `parts` were delivered).
Result: the events delivered to `onChunk`, and the returned `fullText`.
-/
def translateStream (parts : List Str) (failed : Bool) : List GenEvent × Str :=
  let r := emitParts [] parts
  if failed then
    (r.1 ++ [{ text := fallbackMessage, isFinal := false }], "Error".toList)
  else r

end Gemini

namespace Handler

/-
src/functions/translateStream.js, exports.handler.
-/

/-- One SSE payload produced by the handler's `onChunk` callback:
`{ chunk, fullText, index, isDone }` (lines 84-89). -/
structure SSEChunk where
  chunk : Str
  fullText : Str
  index : Nat
  isDone : Bool
deriving Repr, DecidableEq

/-
The handler's callback (lines 79-95), applied to each invocation in turn:
  (currentText, isDone = false) => {
    const newContent = currentText.slice(previousText.length);
    if (newContent.length > 0 || isDone) {
      sseData += `data: ${JSON.stringify({ chunk: newContent,
        fullText: currentText, index: chunkIndex++, isDone })}\n\n`;
      previousText = currentText;
    }
  }
State threaded through: `previousText` (initially "") and `chunkIndex`
(initially 0).  Returns the emitted payloads in order and the final
`previousText`.
-/
def processCalls (previousText : Str) (chunkIndex : Nat) :
    List (Str × Bool) → List SSEChunk × Str
  | [] => ([], previousText)
  | c :: rest =>
    let newContent := c.1.drop previousText.length
    if 0 < newContent.length ∨ c.2 = true then
      let r := processCalls c.1 (chunkIndex + 1) rest
      ({ chunk := newContent, fullText := c.1, index := chunkIndex,
         isDone := c.2 } :: r.1, r.2)
    else
      processCalls previousText chunkIndex rest

/-- One SSE line: `data: <payload>\n\n`. -/
def sseLineData (payload : Str) : Str :=
  "data: ".toList ++ payload ++ "\n\n".toList

/-- Line 102: `sseData += 'data: [DONE]\n\n';`. -/
def doneMarker : Str := "data: [DONE]\n\n".toList

/-- The payload `JSON.stringify({ chunk, fullText, index, isDone })` (lines 84-89),
modelled as literal concatenation (string escaping elided). -/
def chunkJson (c : SSEChunk) : Str :=
  "\x7b\"chunk\":\"".toList ++ c.chunk
    ++ "\",\"fullText\":\"".toList ++ c.fullText
    ++ "\",\"index\":".toList ++ (toString c.index).toList
    ++ ",\"isDone\":".toList
    ++ (if c.isDone then "true".toList else "false".toList)
    ++ "\x7d".toList

/-- The payload `JSON.stringify({ complete: true, final: true })` (lines 98-101). -/
def completionJson : Str := "\x7b\"complete\":true,\"final\":true\x7d".toList

/-- The payload `JSON.stringify({ error, message })` of the two catch blocks. -/
def errorJson (err msg : Str) : Str :=
  "\x7b\"error\":\"".toList ++ err ++ "\",\"message\":\"".toList ++ msg
    ++ "\"\x7d".toList

/-- The SSE data accumulated by the callback over one stream (lines 74-96). -/
def sseBody (calls : List (Str × Bool)) : Str :=
  ((processCalls [] 0 calls).1.map (fun c => sseLineData (chunkJson c))).flatten

/-- The handler's inputs: HTTP method, the outcome of `JSON.parse(event.body)`
destructured to `(text, langCode1, langCode2)` (absent fields as `""`, both
falsy in JS), whether `GEMINI_API_KEY` is set, and the outcome of the
`translateStream` call — the `onChunk` invocations it performs, or the error
it throws. -/
structure HandlerInput where
  httpMethod : String
  bodyParse : Except Str (Str × Str × Str)
  apiKeyPresent : Bool
  streamOutcome : Except Str (List (Str × Bool))

/-
exports.handler (translateStream.js): returns `(statusCode, body)`.
  - OPTIONS preflight → 200, empty body (lines 17-23).
  - non-POST → 405 JSON error (lines 25-34).
  - JSON.parse failure → outer catch (lines 112-125): 500, one error line.
  - missing text/langCode1/langCode2 → 400 JSON error (lines 39-50).
  - missing GEMINI_API_KEY → 500 JSON error (lines 52-61).
  - translateStream throws → inner catch (lines 107-119 region): 500, one
    error line (the accumulated sseData is discarded).
  - success → 200, sseData + completion line + `data: [DONE]` line.
-/
def handlerBody (inp : HandlerInput) : Nat × Str :=
  if inp.httpMethod = "OPTIONS" then (200, [])
  else if inp.httpMethod ≠ "POST" then
    (405, "\x7b\"error\":\"Method not allowed\"\x7d".toList)
  else
    match inp.bodyParse with
    | Except.error msg =>
      (500, sseLineData (errorJson "Request processing failed".toList msg))
    | Except.ok (text, langCode1, langCode2) =>
      if text.isEmpty || langCode1.isEmpty || langCode2.isEmpty then
        (400, ("\x7b\"error\":\"Missing required parameters: "
          ++ "text, langCode1, langCode2\"\x7d").toList)
      else if inp.apiKeyPresent = false then
        (500, "\x7b\"error\":\"Gemini API key not configured\"\x7d".toList)
      else
        match inp.streamOutcome with
        | Except.ok calls =>
          (200, sseBody calls ++ sseLineData completionJson ++ doneMarker)
        | Except.error msg =>
          (500, sseLineData (errorJson "Translation failed".toList msg))

end Handler

namespace ClientToken

/-
src/assets/js/token/accessTokenService.js (client AccessTokenService).
-/

/-- The JSON token payload returned by the serverless function (opaque). -/
structure TokenData where
  payload : String
deriving Repr, DecidableEq

/-- One `this.cache` entry: `{ data, timestamp }` (lines 58-61). -/
structure CacheEntry where
  data : TokenData
  timestamp : Nat
deriving Repr, DecidableEq

/-- The `this.cache` Map, as a lookup function. -/
def CacheMap := String → Option CacheEntry

def CacheMap.empty : CacheMap := fun _ => none

def CacheMap.set (m : CacheMap) (k : String) (v : CacheEntry) : CacheMap :=
  fun k' => if k' = k then some v else m k'

def CacheMap.del (m : CacheMap) (k : String) : CacheMap :=
  fun k' => if k' = k then none else m k'

/-- TTL: `this.cacheTimeout = 9 * 60 * 1000` ms (line 9). -/
def cacheTimeout : Nat := 9 * 60 * 1000

/-- The fetch branch of getAccessToken (lines 35-66): perform the HTTP fetch
(outcome given by the `fetched` oracle); on success store
`{ data, timestamp: Date.now() }` under the key; on failure rethrow with the
cache unchanged.  The `Nat` counts fetch requests performed (here always 1). -/
def doFetch (cacheKey : String) (storeNow : Nat)
    (fetched : Except String TokenData) (cache : CacheMap) :
    Except String TokenData × CacheMap × Nat :=
  match fetched with
  | Except.error e => (Except.error e, cache, 1)
  | Except.ok data =>
    (Except.ok data,
     cache.set cacheKey { data := data, timestamp := storeNow }, 1)

/-
getAccessToken (lines 17-71):
  const cacheKey = provider || 'default';
  if (this.cache.has(cacheKey)) {
    const cached = this.cache.get(cacheKey);
    const now = Date.now();
    if (now - cached.timestamp < this.cacheTimeout) return cached.data;
    else this.cache.delete(cacheKey);
  }
  ... fetch, then cache.set(cacheKey, { data, timestamp: Date.now() }) ...
`now` is the `Date.now()` of the TTL check; `storeNow` the `Date.now()` at
which a fetched result is stored (the call is in flight in between).
-/
def getAccessToken (provider : Option String) (now storeNow : Nat)
    (fetched : Except String TokenData) (cache : CacheMap) :
    Except String TokenData × CacheMap × Nat :=
  let cacheKey := provider.getD "default"
  match cache cacheKey with
  | some cached =>
    if now - cached.timestamp < cacheTimeout then
      (Except.ok cached.data, cache, 0)
    else
      doFetch cacheKey storeNow fetched (cache.del cacheKey)
  | none => doFetch cacheKey storeNow fetched cache

end ClientToken

namespace ServerToken

/-
src/functions/services/tokenService.js (server AccessTokenService).
-/

/-- One registration attempt in `initializeProviders` (lines 17-57): the
registry name, whether the required environment variables are present (the
`process.env` guard), and whether the adapter constructor's `validateConfig`
succeeds (the try/catch around `new ...Provider`). -/
structure ProviderSpec where
  name : String
  envConfigured : Bool
  ctorOk : Bool
deriving Repr, DecidableEq

/-- Registry state: `this.providers` (a Map, insertion-ordered keys) and
`this.defaultProvider`. -/
structure Registry where
  providers : List String
  defaultProvider : Option String
deriving Repr, DecidableEq

/-- One provider block of initializeProviders: register on success, set as
default only if no default is set yet; a misconfigured or throwing adapter is
logged and skipped. -/
def registerProvider (r : Registry) (p : ProviderSpec) : Registry :=
  if p.envConfigured && p.ctorOk then
    { providers := r.providers ++ [p.name],
      defaultProvider :=
        match r.defaultProvider with
        | none => some p.name
        | some d => some d }
  else r

def initializeProviders (specs : List ProviderSpec) : Registry :=
  specs.foldl registerProvider { providers := [], defaultProvider := none }

/-- Model of `getAvailableProviders()` (lines 63-65): the registered names in
insertion order. -/
def getAvailableProviders (r : Registry) : List String := r.providers

/-- The two failure classes thrown by getToken (spec taxonomy names):
`noProviderConfigured` for "No token providers are available. Please check
your configuration." and `providerNotFound` for "Provider '<t>' not found or
not configured. Available providers: ...". -/
inductive TokenError
  | noProviderConfigured
  | providerNotFound (name : String) (available : List String)
deriving Repr, DecidableEq

/-- A successfully configured registration attempt. -/
def configuredOk (p : ProviderSpec) : Bool := p.envConfigured && p.ctorOk

/-
getToken (lines 81-100):
  const targetProvider = providerName || this.defaultProvider;
  if (!targetProvider) throw ...'No token providers are available'...;
  const provider = this.providers.get(targetProvider);
  if (!provider) throw ...`Provider '${targetProvider}' not found`...;
  return await provider.getToken();
Reaching `provider.getToken()` is modelled as success carrying the chosen
provider's name; `providerName || ...` treats the empty string as falsy.
-/
def getToken (r : Registry) (providerName : Option String) :
    Except TokenError String :=
  let target :=
    match providerName with
    | some s => if s.isEmpty then r.defaultProvider else some s
    | none => r.defaultProvider
  match target with
  | none => Except.error TokenError.noProviderConfigured
  | some t =>
    if r.providers.contains t then Except.ok t
    else Except.error (TokenError.providerNotFound t r.providers)

end ServerToken

namespace TTS

lemma guardInterval_nonneg : (0:ℚ) ≤ guardInterval := by norm_num [guardInterval]

lemma runEnqueues_start_ge (calls : List (ℚ × ℚ)) :
    ∀ (s : SchedState) (x : ℚ), x ≤ s.lastQueuedEndTime →
      (∀ c ∈ calls, (0:ℚ) ≤ c.2) →
      ∀ seg ∈ (runEnqueues calls s).1, x ≤ seg.scheduledStart := by
  induction calls with
  | nil => intro s x _ _ seg h; simp [runEnqueues] at h
  | cons c rest ih =>
    intro s x hx hd seg hseg
    simp only [runEnqueues, List.mem_cons] at hseg
    rcases hseg with h | h
    · subst h
      simp only [enqueueAndPlay]
      exact le_trans hx (le_max_right _ _)
    · refine ih _ x ?_ (fun c hc => hd c (List.mem_cons_of_mem _ hc)) seg h
      simp only [enqueueAndPlay]
      have h2 : (0:ℚ) ≤ c.2 := hd c (List.mem_cons_self _ _)
      have : s.lastQueuedEndTime ≤ max c.1 s.lastQueuedEndTime + c.2 + guardInterval := by
        have := guardInterval_nonneg
        have := le_max_right c.1 s.lastQueuedEndTime
        linarith
      linarith

lemma runEnqueues_pairwise (calls : List (ℚ × ℚ)) :
    ∀ (s : SchedState), (∀ c ∈ calls, (0:ℚ) ≤ c.2) →
      (runEnqueues calls s).1.Pairwise
        (fun a b => a.scheduledStart + a.duration ≤ b.scheduledStart) := by
  induction calls with
  | nil => intro s _; simp [runEnqueues]
  | cons c rest ih =>
    intro s hd
    simp only [runEnqueues, List.pairwise_cons]
    constructor
    · intro b hb
      refine runEnqueues_start_ge rest _ _ ?_
        (fun c hc => hd c (List.mem_cons_of_mem _ hc)) b hb
      simp only [enqueueAndPlay]
      have := guardInterval_nonneg
      linarith
    · exact ih _ (fun c hc => hd c (List.mem_cons_of_mem _ hc))

lemma jsTrim_eq_nil_of_blank (text : Str) (h : ∀ c ∈ text, c.isWhitespace = true) :
    jsTrim text = [] := by
  have h1 : text.dropWhile Char.isWhitespace = [] := by
    rw [List.dropWhile_eq_nil_iff]
    exact h
  simp [jsTrim, h1]

end TTS

namespace Gemini

lemma transient_not_ok (r : HttpResponse) (h : r.transientStatus = true) :
    r.ok = false := by
  simp only [HttpResponse.transientStatus, Bool.or_eq_true,
    decide_eq_true_eq] at h
  cases hok : r.ok with
  | false => rfl
  | true =>
    exfalso
    simp only [HttpResponse.ok, Bool.and_eq_true, decide_eq_true_eq] at hok
    rcases h with h | h <;> omega

lemma fetchLoop_all_transient (fetch : Nat → HttpResponse) :
    ∀ (fuel i delay : Nat),
      (∀ k, k < fuel → (fetch (i + k)).transientStatus = true) →
      fetchLoop fetch i fuel delay
        = (Except.error "API request failed after multiple retries.",
           (List.range fuel).map (fun k => delay * 2 ^ k)) := by
  intro fuel
  induction fuel with
  | zero => intro i delay _; simp [fetchLoop]
  | succ n ih =>
    intro i delay h
    have h0 : (fetch i).transientStatus = true := by
      have := h 0 (Nat.succ_pos n)
      simpa using this
    have hok : (fetch i).ok = false := transient_not_ok _ h0
    have hrest : ∀ k, k < n → (fetch (i + 1 + k)).transientStatus = true := by
      intro k hk
      have := h (k + 1) (by omega)
      have harith : i + 1 + k = i + (k + 1) := by omega
      rw [harith]
      exact this
    simp only [fetchLoop, hok, h0, if_false, if_true, Bool.false_eq_true,
      ih (i + 1) (delay * 2) hrest]
    rw [List.range_succ_eq_map]
    simp only [List.map_cons, List.map_map, pow_zero, mul_one]
    congr 1
    congr 1
    apply List.map_congr_left
    intro k _
    simp only [Function.comp_apply, Nat.succ_eq_add_one]
    ring

lemma fetchLoop_delays_take (fetch : Nat → HttpResponse) :
    ∀ (n fuel i delay : Nat), n ≤ fuel →
      (∀ k, k < n → (fetch (i + k)).transientStatus = true) →
      (fetchLoop fetch i fuel delay).2.take n
        = (List.range n).map (fun k => delay * 2 ^ k) := by
  intro n
  induction n with
  | zero => intro fuel i delay _ _; simp
  | succ m ih =>
    intro fuel i delay hle h
    cases fuel with
    | zero => exact absurd hle (by omega)
    | succ f =>
      have h0 : (fetch i).transientStatus = true := by
        have := h 0 (Nat.succ_pos m)
        simpa using this
      have hok : (fetch i).ok = false := transient_not_ok _ h0
      have hrest : ∀ k, k < m → (fetch (i + 1 + k)).transientStatus = true := by
        intro k hk
        have := h (k + 1) (by omega)
        have harith : i + 1 + k = i + (k + 1) := by omega
        rw [harith]
        exact this
      simp only [fetchLoop, hok, h0, if_false, if_true, Bool.false_eq_true]
      rw [List.take_succ_cons, ih f (i + 1) (delay * 2) (by omega) hrest,
        List.range_succ_eq_map]
      simp only [List.map_cons, List.map_map, pow_zero, mul_one]
      congr 1
      apply List.map_congr_left
      intro k _
      simp only [Function.comp_apply, Nat.succ_eq_add_one]
      ring

lemma emitParts_not_final : ∀ (parts : List Str) (ft : Str),
    ∀ e ∈ (emitParts ft parts).1, e.isFinal = false := by
  intro parts
  induction parts with
  | nil => intro ft e he; simp [emitParts] at he
  | cons p ps ih =>
    intro ft e he
    simp only [emitParts, List.mem_cons] at he
    rcases he with he | he
    · rw [he]
    · exact ih _ e he

end Gemini

namespace Handler

lemma processCalls_spec (calls : List (Str × Bool)) :
    ∀ (prev : Str) (i : Nat),
      List.Chain' (fun a b => a <+: b) (prev :: calls.map Prod.fst) →
      prev ++ ((processCalls prev i calls).1.map (fun e => e.chunk)).flatten
          = (processCalls prev i calls).2 ∧
      (∀ e, (processCalls prev i calls).1.head? = some e →
        prev ++ e.chunk = e.fullText) ∧
      List.Chain' (fun a b => a.fullText ++ b.chunk = b.fullText)
        (processCalls prev i calls).1 ∧
      (∀ e, (processCalls prev i calls).1.getLast? = some e →
        e.fullText = (processCalls prev i calls).2) ∧
      ((processCalls prev i calls).1 = [] →
        (processCalls prev i calls).2 = prev) := by
  induction calls with
  | nil =>
    intro prev i _
    refine ⟨by simp [processCalls], ?_, ?_, ?_, fun _ => rfl⟩
    · intro e he; simp [processCalls] at he
    · simp [processCalls]
    · intro e he; simp [processCalls] at he
  | cons c rest ih =>
    intro prev i hchain
    rw [List.map_cons, List.chain'_cons'] at hchain
    obtain ⟨hpre0, hchain'⟩ := hchain
    have hpre : prev <+: c.1 := hpre0 c.1 (by simp)
    have hfill : prev ++ c.1.drop prev.length = c.1 := by
      obtain ⟨t, ht⟩ := hpre
      rw [← ht, List.drop_left]
    by_cases hcond : 0 < (c.1.drop prev.length).length ∨ c.2 = true
    · have heq : processCalls prev i (c :: rest)
          = ({ chunk := c.1.drop prev.length, fullText := c.1, index := i,
               isDone := c.2 } :: (processCalls c.1 (i + 1) rest).1,
             (processCalls c.1 (i + 1) rest).2) := by
        simp only [processCalls, if_pos hcond]
      obtain ⟨j1, j2, j3, j4, j5⟩ := ih c.1 (i + 1) hchain'
      rw [heq]
      refine ⟨?_, ?_, ?_, ?_, ?_⟩
      · simp only [List.map_cons, List.flatten_cons]
        rw [← List.append_assoc, hfill, j1]
      · intro e he
        simp only [List.head?_cons, Option.some.injEq] at he
        rw [← he, hfill]
      · rw [List.chain'_cons']
        refine ⟨?_, j3⟩
        intro y hy
        have := j2 y hy
        simpa using this
      · intro e he
        cases hr : (processCalls c.1 (i + 1) rest).1 with
        | nil =>
          rw [hr] at he
          simp only [List.getLast?_singleton, Option.some.injEq] at he
          rw [← he]
          exact (j5 hr).symm
        | cons y ys =>
          rw [hr] at he
          rw [List.getLast?_cons_cons] at he
          rw [← hr] at he
          exact j4 e he
      · intro he
        exact absurd he (by simp)
    · have hlen : c.1.length ≤ prev.length := by
        push_neg at hcond
        have := hcond.1
        simp only [List.length_drop] at this
        omega
      have hprev : prev = c.1 :=
        hpre.eq_of_length (le_antisymm hpre.length_le hlen)
      have heq : processCalls prev i (c :: rest)
          = processCalls prev i rest := by
        simp only [processCalls, if_neg hcond]
      rw [heq]
      apply ih prev i
      rw [hprev]
      exact hchain'

end Handler

namespace ServerToken

lemma registerProvider_foldl (specs : List ProviderSpec) :
    ∀ (r : Registry),
      (specs.foldl registerProvider r).providers
        = r.providers ++ (specs.filter configuredOk).map ProviderSpec.name ∧
      (specs.foldl registerProvider r).defaultProvider
        = (match r.defaultProvider with
           | some d => some d
           | none =>
             ((specs.filter configuredOk).map ProviderSpec.name).head?) := by
  induction specs with
  | nil =>
    intro r
    refine ⟨by simp, ?_⟩
    cases h : r.defaultProvider <;> simp [h]
  | cons p ps ih =>
    intro r
    by_cases hp : configuredOk p = true
    · have hreg : registerProvider r p
          = { providers := r.providers ++ [p.name],
              defaultProvider :=
                match r.defaultProvider with
                | none => some p.name
                | some d => some d } := by
        simp only [registerProvider, configuredOk] at hp ⊢
        rw [if_pos hp]
      obtain ⟨i1, i2⟩ := ih (registerProvider r p)
      rw [List.foldl_cons]
      refine ⟨?_, ?_⟩
      · rw [i1, hreg]
        simp [List.filter_cons, hp]
      · rw [i2, hreg]
        cases h : r.defaultProvider <;>
          simp [List.filter_cons, hp, h]
    · have hpf : configuredOk p = false := by
        cases hcc : configuredOk p
        · rfl
        · exact absurd hcc hp
      have hreg : registerProvider r p = r := by
        simp only [registerProvider, configuredOk] at hpf ⊢
        rw [if_neg (by rw [hpf]; exact Bool.false_ne_true)]
      obtain ⟨i1, i2⟩ := ih r
      rw [List.foldl_cons, hreg]
      refine ⟨?_, ?_⟩
      · rw [i1]
        simp [List.filter_cons, hpf]
      · rw [i2]
        cases h : r.defaultProvider <;> simp [List.filter_cons, hpf, h]

lemma initializeProviders_spec (specs : List ProviderSpec) :
    (initializeProviders specs).providers
      = (specs.filter configuredOk).map ProviderSpec.name ∧
    (initializeProviders specs).defaultProvider
      = ((specs.filter configuredOk).map ProviderSpec.name).head? := by
  obtain ⟨h1, h2⟩ :=
    registerProvider_foldl specs { providers := [], defaultProvider := none }
  refine ⟨by simpa using h1, by simpa using h2⟩

end ServerToken

/-- C4: in `fetchWithRetry` (base delay 1000 ms, 5 attempts), on N consecutive
transient failures (HTTP 429 or >= 500) the delay slept before the Nth retry
is `1000 * 2^(N-1)`; after 5 transient failures the call fails with the
retries-exhausted error; and a 4xx status other than 429 on the first attempt
fails immediately with no retry and no sleep. -/
theorem C4_retry_backoff (fetch : Nat → Gemini.HttpResponse) :
    (∀ n, n ≤ 5 →
      (∀ k, k < n → (fetch k).transientStatus = true) →
      (Gemini.fetchWithRetry fetch).2.take n
        = (List.range n).map (fun k => 1000 * 2 ^ k)) ∧
    ((∀ k, k < 5 → (fetch k).transientStatus = true) →
      (Gemini.fetchWithRetry fetch).1
        = Except.error "API request failed after multiple retries.") ∧
    (400 ≤ (fetch 0).status → (fetch 0).status < 500 → (fetch 0).status ≠ 429 →
      Gemini.fetchWithRetry fetch
        = (Except.error ("API Error: " ++ toString (fetch 0).status ++ " "
            ++ (fetch 0).statusText), [])) := by
  refine ⟨?_, ?_, ?_⟩
  · intro n hn h
    exact Gemini.fetchLoop_delays_take fetch n 5 0 1000 hn
      (fun k hk => by rw [Nat.zero_add]; exact h k hk)
  · intro h
    rw [Gemini.fetchWithRetry, Gemini.fetchLoop_all_transient fetch 5 0 1000
      (fun k hk => by rw [Nat.zero_add]; exact h k hk)]
  · intro h1 h2 h3
    have hok : (fetch 0).ok = false := by
      cases hx : (fetch 0).ok with
      | false => rfl
      | true =>
        exfalso
        simp only [Gemini.HttpResponse.ok, Bool.and_eq_true,
          decide_eq_true_eq] at hx
        omega
    have htr : (fetch 0).transientStatus = false := by
      cases hx : (fetch 0).transientStatus with
      | false => rfl
      | true =>
        exfalso
        simp only [Gemini.HttpResponse.transientStatus, Bool.or_eq_true,
          decide_eq_true_eq] at hx
        rcases hx with hx | hx <;> omega
    simp [Gemini.fetchWithRetry, Gemini.fetchLoop, hok, htr]

/-- Witness for C4: three consecutive 429s sleep 1000, 2000, 4000 ms; five
429s exhaust the attempts; a single 404 fails at once with no sleep. -/
theorem C4_retry_backoff_witness :
    (∀ k, k < 3 →
      ((fun _ => ({ status := 429, statusText := "Too Many Requests" }
        : Gemini.HttpResponse)) k).transientStatus = true) ∧
    (Gemini.fetchWithRetry
        (fun _ => { status := 429, statusText := "Too Many Requests" })).2.take 3
      = (List.range 3).map (fun k => 1000 * 2 ^ k) ∧
    (Gemini.fetchWithRetry
        (fun _ => { status := 429, statusText := "Too Many Requests" })).1
      = Except.error "API request failed after multiple retries." ∧
    Gemini.fetchWithRetry
        (fun _ => { status := 404, statusText := "Not Found" })
      = (Except.error ("API Error: "
          ++ toString ((fun _ => ({ status := 404, statusText := "Not Found" }
              : Gemini.HttpResponse)) 0).status ++ " "
          ++ ((fun _ => ({ status := 404, statusText := "Not Found" }
              : Gemini.HttpResponse)) 0).statusText), []) :=
  ⟨by decide,
   (C4_retry_backoff _).1 3 (by omega) (by decide),
   (C4_retry_backoff _).2.1 (by decide),
   (C4_retry_backoff _).2.2 (by decide) (by decide) (by decide)⟩

/-- C2, counterexample to the claim as stated: at the concrete input of an
upstream failure before any chunk (no parts, failed = true), the single event
`translateStream` delivers to `onChunk` has `isFinal = false` — no invocation
ever emits an `isFinal = true` event, because `onChunk(fullText)` never passes
the callback's `isDone` parameter — and the returned `finalText` is the string
"Error", not the fallback message that was emitted. -/
theorem C2_terminal_event_counterexample :
    ((Gemini.translateStream [] true).1.any (fun e => e.isFinal)) = false ∧
    (Gemini.translateStream [] true).2 ≠ Gemini.fallbackMessage := by
  exact ⟨rfl, by decide⟩

/-- C2 as amended: every event `translateStream` delivers has
`isFinal = false` (the `isDone` argument is never supplied); on unrecoverable
failure it emits exactly one extra event carrying the user-facing fallback
message (still with `isFinal = false`) after any already-delivered partial
events, and returns "Error" — not the fallback message — as `finalText`. -/
theorem C2_terminal_event_amended (parts : List Str) (failed : Bool) :
    (∀ e ∈ (Gemini.translateStream parts failed).1, e.isFinal = false) ∧
    (failed = true →
      (Gemini.translateStream parts failed).1
        = (Gemini.emitParts [] parts).1
            ++ [{ text := Gemini.fallbackMessage, isFinal := false }] ∧
      (Gemini.translateStream parts failed).2 = "Error".toList) := by
  cases failed with
  | false =>
    refine ⟨?_, fun h => absurd h (by simp)⟩
    intro e he
    simp only [Gemini.translateStream, Bool.false_eq_true, if_false] at he
    exact Gemini.emitParts_not_final parts [] e he
  | true =>
    constructor
    · intro e he
      simp only [Gemini.translateStream, if_true, List.mem_append,
        List.mem_singleton] at he
      rcases he with he | he
      · exact Gemini.emitParts_not_final parts [] e he
      · rw [he]
    · intro _
      exact ⟨rfl, rfl⟩

/-- Witness for C2's amended theorem: one partial chunk "Hola", then failure. -/
theorem C2_terminal_event_amended_witness :
    (∀ e ∈ (Gemini.translateStream ["Hola".toList] true).1, e.isFinal = false) ∧
    ((true : Bool) = true →
      (Gemini.translateStream ["Hola".toList] true).1
        = (Gemini.emitParts [] ["Hola".toList]).1
            ++ [{ text := Gemini.fallbackMessage, isFinal := false }] ∧
      (Gemini.translateStream ["Hola".toList] true).2 = "Error".toList) :=
  C2_terminal_event_amended ["Hola".toList] true

/-- C5: for any accumulated-style callback sequence in which each successive
full text extends the previous one as a prefix, every emitted SSE chunk is the
current full text minus the previously emitted full text as a literal suffix
(the first chunk equals its own full text), and concatenating all emitted
chunks in order reproduces the full text of the last emitted event exactly. -/
theorem C5_delta_reconstruction (calls : List (Str × Bool))
    (h : List.Chain' (fun a b => a <+: b) (calls.map Prod.fst)) :
    (∀ e, (Handler.processCalls [] 0 calls).1.head? = some e →
      e.chunk = e.fullText) ∧
    List.Chain' (fun a b => a.fullText ++ b.chunk = b.fullText)
      (Handler.processCalls [] 0 calls).1 ∧
    (∀ e, (Handler.processCalls [] 0 calls).1.getLast? = some e →
      ((Handler.processCalls [] 0 calls).1.map (fun x => x.chunk)).flatten
        = e.fullText) := by
  have hchain : List.Chain' (fun a b => a <+: b)
      (([] : Str) :: calls.map Prod.fst) := by
    rw [List.chain'_cons']
    exact ⟨fun y _ => ⟨y, rfl⟩, h⟩
  obtain ⟨j1, j2, j3, j4, _⟩ := Handler.processCalls_spec calls [] 0 hchain
  refine ⟨?_, j3, ?_⟩
  · intro e he
    have := j2 e he
    simpa using this
  · intro e he
    have h4 := j4 e he
    rw [← h4] at j1
    simpa using j1

/-- Witness for C5: the spec's own scenario — accumulated chunks "Hola",
"Hola,", "Hola, amigo". -/
theorem C5_delta_reconstruction_witness :
    List.Chain' (fun a b => a <+: b)
      ([("Hola".toList, false), ("Hola,".toList, false),
        ("Hola, amigo".toList, false)].map Prod.fst) ∧
    ((∀ e, (Handler.processCalls [] 0
        [("Hola".toList, false), ("Hola,".toList, false),
         ("Hola, amigo".toList, false)]).1.head? = some e →
      e.chunk = e.fullText) ∧
    List.Chain' (fun a b => a.fullText ++ b.chunk = b.fullText)
      (Handler.processCalls [] 0
        [("Hola".toList, false), ("Hola,".toList, false),
         ("Hola, amigo".toList, false)]).1 ∧
    (∀ e, (Handler.processCalls [] 0
        [("Hola".toList, false), ("Hola,".toList, false),
         ("Hola, amigo".toList, false)]).1.getLast? = some e →
      ((Handler.processCalls [] 0
        [("Hola".toList, false), ("Hola,".toList, false),
         ("Hola, amigo".toList, false)]).1.map (fun x => x.chunk)).flatten
        = e.fullText)) := by
  have hchain : List.Chain' (fun a b => a <+: b)
      ([("Hola".toList, false), ("Hola,".toList, false),
        ("Hola, amigo".toList, false)].map Prod.fst) := by
    simp only [List.map_cons, List.map_nil]
    exact List.chain'_cons.mpr ⟨⟨",".toList, rfl⟩,
      List.chain'_cons.mpr ⟨⟨" amigo".toList, rfl⟩, List.chain'_singleton _⟩⟩
  exact ⟨hchain, C5_delta_reconstruction _ hchain⟩

/-- C9, counterexample to the claim as stated: when the `translateStream` call
throws (here with message "boom"), the 500 response body is the single error
payload line and does not terminate with the `data: [DONE]` line. -/
theorem C9_done_marker_counterexample :
    Handler.doneMarker.isSuffixOf
      (Handler.handlerBody
        { httpMethod := "POST",
          bodyParse := Except.ok ("Hello".toList, "en".toList, "es".toList),
          apiKeyPresent := true,
          streamOutcome := Except.error "boom".toList }).2 = false := by
  decide

/-- C9 as amended: only the successful streaming path terminates its body with
the literal `data: [DONE]` line followed by a blank line; the stream-error and
request-processing-error responses consist of exactly one error payload line
with no `[DONE]` marker appended. -/
theorem C9_done_marker_amended (calls : List (Str × Bool)) (e1 e2 : Str) :
    Handler.handlerBody
        { httpMethod := "POST",
          bodyParse := Except.ok ("Hello".toList, "en".toList, "es".toList),
          apiKeyPresent := true, streamOutcome := Except.ok calls }
      = (200, Handler.sseBody calls ++ Handler.sseLineData Handler.completionJson
          ++ Handler.doneMarker) ∧
    Handler.doneMarker <:+
      (Handler.handlerBody
        { httpMethod := "POST",
          bodyParse := Except.ok ("Hello".toList, "en".toList, "es".toList),
          apiKeyPresent := true, streamOutcome := Except.ok calls }).2 ∧
    Handler.handlerBody
        { httpMethod := "POST",
          bodyParse := Except.ok ("Hello".toList, "en".toList, "es".toList),
          apiKeyPresent := true, streamOutcome := Except.error e1 }
      = (500, Handler.sseLineData
          (Handler.errorJson "Translation failed".toList e1)) ∧
    Handler.handlerBody
        { httpMethod := "POST", bodyParse := Except.error e2,
          apiKeyPresent := true, streamOutcome := Except.ok calls }
      = (500, Handler.sseLineData
          (Handler.errorJson "Request processing failed".toList e2)) := by
  refine ⟨rfl, ?_, rfl, rfl⟩
  show Handler.doneMarker <:+
    Handler.sseBody calls ++ Handler.sseLineData Handler.completionJson
      ++ Handler.doneMarker
  exact List.suffix_append _ _

/-- C1: every `_enqueueAndPlay` call schedules its segment at
`scheduledStart = max(audioClockNow, lastScheduledEnd)` and advances the
watermark to `scheduledStart + duration + guardInterval` (0.25 s = 250 ms);
hence for any sequence of enqueue calls with non-negative buffer durations,
any segment `a` scheduled before a segment `b` satisfies
`b.scheduledStart >= a.scheduledStart + a.duration` — no two segments overlap. -/
theorem C1_no_overlap_scheduling (calls : List (ℚ × ℚ)) (s : TTS.SchedState)
    (hdur : ∀ c ∈ calls, (0:ℚ) ≤ c.2) :
    (∀ (now dur : ℚ) (st : TTS.SchedState),
        (TTS.enqueueAndPlay now dur st).1.scheduledStart
            = max now st.lastQueuedEndTime ∧
        (TTS.enqueueAndPlay now dur st).2.lastQueuedEndTime
            = (TTS.enqueueAndPlay now dur st).1.scheduledStart
                + dur + TTS.guardInterval) ∧
    (TTS.runEnqueues calls s).1.Pairwise
      (fun a b => a.scheduledStart + a.duration ≤ b.scheduledStart) :=
  ⟨fun _ _ _ => ⟨rfl, rfl⟩, TTS.runEnqueues_pairwise calls s hdur⟩

/-- Witness for C1: the spec's own scenario — three back-to-back enqueues of
durations 2 s, 1 s, 3 s starting from a fresh scheduler. -/
theorem C1_no_overlap_scheduling_witness :
    (∀ c ∈ [((0:ℚ), (2:ℚ)), (0, 1), (0, 3)], (0:ℚ) ≤ c.2) ∧
    (TTS.runEnqueues [((0:ℚ), (2:ℚ)), (0, 1), (0, 3)]
        { lastQueuedEndTime := 0 }).1.Pairwise
      (fun a b => a.scheduledStart + a.duration ≤ b.scheduledStart) :=
  ⟨by decide, (C1_no_overlap_scheduling _ _ (by decide)).2⟩

/-- C8, counterexample to the claim as stated: with the audio clock at 1 and a
watermark of 2, `stop()` sets `lastQueuedEndTime` to 0, not to the current
time 1. -/
theorem C8_stop_counterexample :
    ¬ (TTS.stop { lastQueuedEndTime := 2 }).lastQueuedEndTime = 1 := by
  simp [TTS.stop]

/-- C8 as amended: `stop()` resets the watermark to 0 (not to "now"); since the
audio clock is non-negative, the next enqueue schedules at
`max(now, 0) = now`, the audio clock's current time, so chaining past
previously queued segments is still prevented. -/
theorem C8_stop_amended (s : TTS.SchedState) (now dur : ℚ) (h : 0 ≤ now) :
    (TTS.stop s).lastQueuedEndTime = 0 ∧
    (TTS.enqueueAndPlay now dur (TTS.stop s)).1.scheduledStart = now := by
  refine ⟨rfl, ?_⟩
  simp only [TTS.enqueueAndPlay, TTS.stop]
  exact max_eq_left h

/-- Witness for C8's amended theorem at watermark 5, clock 3, duration 1. -/
theorem C8_stop_amended_witness :
    (0:ℚ) ≤ 3 ∧
    ((TTS.stop { lastQueuedEndTime := 5 }).lastQueuedEndTime = 0 ∧
     (TTS.enqueueAndPlay 3 1
        (TTS.stop { lastQueuedEndTime := 5 })).1.scheduledStart = 3) :=
  ⟨by norm_num, C8_stop_amended { lastQueuedEndTime := 5 } 3 1 (by norm_num)⟩

/-- C6: if synthesis or audio decoding fails during one `speakQueued` call on
non-blank text, the call reports that error to its caller, the watermark state
is left unchanged, and any subsequent call behaves exactly as if the failed
call had never happened. -/
theorem C6_failure_leaves_watermark {α : Type} (text : Str) (isInit : Bool)
    (backend : Except String α) (decode : α → Except String ℚ) (now : ℚ)
    (s : TTS.SchedState) (e : String)
    (htext : (text.isEmpty || (TTS.jsTrim text).isEmpty) = false)
    (hfail : TTS.synthesize text isInit backend = Except.error e ∨
      ∃ a, TTS.synthesize text isInit backend = Except.ok a ∧
        decode a = Except.error e) :
    TTS.speakQueued text isInit backend decode now s = (Except.error e, s, true) ∧
    ∀ (text2 : Str) (isInit2 : Bool) (backend2 : Except String α)
      (decode2 : α → Except String ℚ) (now2 : ℚ),
      TTS.speakQueued text2 isInit2 backend2 decode2 now2
          (TTS.speakQueued text isInit backend decode now s).2.1
        = TTS.speakQueued text2 isInit2 backend2 decode2 now2 s := by
  have hmain :
      TTS.speakQueued text isInit backend decode now s
        = (Except.error e, s, true) := by
    rcases hfail with hsyn | ⟨a, hsyn, hdec⟩
    · simp [TTS.speakQueued, htext, hsyn]
    · simp [TTS.speakQueued, htext, hsyn, hdec]
  exact ⟨hmain, fun _ _ _ _ _ => by rw [hmain]⟩

/-- Witness for C6: synthesis fails with "boom" on text "hi"; the state is
unchanged and a later identical call sees the same state. -/
theorem C6_failure_leaves_watermark_witness :
    ((("hi".toList : Str).isEmpty || (TTS.jsTrim "hi".toList).isEmpty) = false) ∧
    (TTS.speakQueued "hi".toList true (Except.error "boom" : Except String Unit)
        (fun _ => Except.ok 1) 0 { lastQueuedEndTime := 0 }
      = (Except.error "boom", { lastQueuedEndTime := 0 }, true) ∧
     ∀ (text2 : Str) (isInit2 : Bool) (backend2 : Except String Unit)
       (decode2 : Unit → Except String ℚ) (now2 : ℚ),
       TTS.speakQueued text2 isInit2 backend2 decode2 now2
           (TTS.speakQueued "hi".toList true
             (Except.error "boom" : Except String Unit)
             (fun _ => Except.ok 1) 0 { lastQueuedEndTime := 0 }).2.1
         = TTS.speakQueued text2 isInit2 backend2 decode2 now2
             { lastQueuedEndTime := 0 }) :=
  ⟨by decide,
   C6_failure_leaves_watermark "hi".toList true _ _ 0 { lastQueuedEndTime := 0 }
     "boom" (by decide) (Or.inl rfl)⟩

/-- C10: for text that is empty or whitespace-only, `speakQueued` resolves
immediately with no error, schedules nothing, performs no synthesis call and
leaves the watermark untouched — while the underlying `synthesize` operation
itself rejects that same text with the "Text cannot be empty" error. -/
theorem C10_blank_text_skipped {α : Type} (text : Str) (isInit : Bool)
    (backend : Except String α) (decode : α → Except String ℚ) (now : ℚ)
    (s : TTS.SchedState)
    (h : ∀ c ∈ text, c.isWhitespace = true) :
    TTS.speakQueued text isInit backend decode now s
      = (Except.ok none, s, false) ∧
    TTS.synthesize text true backend = Except.error "Text cannot be empty" := by
  have htrim : TTS.jsTrim text = [] := TTS.jsTrim_eq_nil_of_blank text h
  constructor
  · simp [TTS.speakQueued, htrim]
  · simp [TTS.synthesize, htrim]

/-- Witness for C10: two-space whitespace-only input. -/
theorem C10_blank_text_skipped_witness :
    (∀ c ∈ ("  ".toList : Str), c.isWhitespace = true) ∧
    (TTS.speakQueued "  ".toList true (Except.ok () : Except String Unit)
        (fun _ => Except.ok 1) 0 { lastQueuedEndTime := 0 }
      = (Except.ok none, { lastQueuedEndTime := 0 }, false) ∧
     TTS.synthesize "  ".toList true (Except.ok () : Except String Unit)
      = Except.error "Text cannot be empty") :=
  ⟨by decide,
   C10_blank_text_skipped "  ".toList true _ _ 0 { lastQueuedEndTime := 0 }
     (by decide)⟩

/-- C3: on one client AccessTokenService instance and any cache key
(provider name or "default"): a first call fetches once and stores the result
with `cachedAt` equal to the store time; a second call within the 9-minute TTL
returns the cached record with no fetch (so the producer ran exactly once over
the two calls); a call made once the TTL has elapsed evicts the stale entry,
fetches again, and stores the new result with `cachedAt = now`. -/
theorem C3_cache_ttl (provider : Option String)
    (d d2 : ClientToken.TokenData) (t0 t1 t2 t2s : Nat)
    (c0 : ClientToken.CacheMap)
    (hempty : c0 (provider.getD "default") = none)
    (h1 : t1 - t0 < ClientToken.cacheTimeout)
    (h2 : ClientToken.cacheTimeout ≤ t2 - t0) :
    (ClientToken.getAccessToken provider t0 t0 (Except.ok d) c0).2.2 = 1 ∧
    (ClientToken.getAccessToken provider t0 t0 (Except.ok d) c0).2.1
        (provider.getD "default")
      = some { data := d, timestamp := t0 } ∧
    ClientToken.getAccessToken provider t1 t1 (Except.ok d2)
        (ClientToken.getAccessToken provider t0 t0 (Except.ok d) c0).2.1
      = (Except.ok d,
         (ClientToken.getAccessToken provider t0 t0 (Except.ok d) c0).2.1,
         0) ∧
    (ClientToken.getAccessToken provider t2 t2s (Except.ok d2)
        (ClientToken.getAccessToken provider t0 t0 (Except.ok d) c0).2.1).1
      = Except.ok d2 ∧
    (ClientToken.getAccessToken provider t2 t2s (Except.ok d2)
        (ClientToken.getAccessToken provider t0 t0 (Except.ok d) c0).2.1).2.2
      = 1 ∧
    (ClientToken.getAccessToken provider t2 t2s (Except.ok d2)
        (ClientToken.getAccessToken provider t0 t0 (Except.ok d) c0).2.1).2.1
        (provider.getD "default")
      = some { data := d2, timestamp := t2s } := by
  have hc1 : ClientToken.getAccessToken provider t0 t0 (Except.ok d) c0
      = (Except.ok d,
         ClientToken.CacheMap.set c0 (provider.getD "default")
           { data := d, timestamp := t0 }, 1) := by
    simp [ClientToken.getAccessToken, ClientToken.doFetch, hempty]
  have hk : ClientToken.CacheMap.set c0 (provider.getD "default")
      { data := d, timestamp := t0 } (provider.getD "default")
      = some { data := d, timestamp := t0 } := by
    simp [ClientToken.CacheMap.set]
  have hnot : ¬ (t2 - t0 < ClientToken.cacheTimeout) := by omega
  rw [hc1]
  refine ⟨rfl, hk, ?_, ?_, ?_, ?_⟩
  · simp [ClientToken.getAccessToken, hk, h1]
  · simp [ClientToken.getAccessToken, hk, hnot, ClientToken.doFetch]
  · simp [ClientToken.getAccessToken, hk, hnot, ClientToken.doFetch]
  · simp [ClientToken.getAccessToken, hk, hnot, ClientToken.doFetch,
      ClientToken.CacheMap.set]

/-- Witness for C3: default key, fetch at time 0, hit at 1000 ms,
refetch at exactly the 9-minute mark (540000 ms). -/
theorem C3_cache_ttl_witness :
    (ClientToken.CacheMap.empty ((none : Option String).getD "default")
        = none) ∧
    (1000 - 0 < ClientToken.cacheTimeout) ∧
    (ClientToken.cacheTimeout ≤ 540000 - 0) ∧
    ((ClientToken.getAccessToken none 0 0
        (Except.ok { payload := "tokA" })
        ClientToken.CacheMap.empty).2.2 = 1 ∧
     (ClientToken.getAccessToken none 0 0
        (Except.ok { payload := "tokA" })
        ClientToken.CacheMap.empty).2.1
          ((none : Option String).getD "default")
        = some { data := { payload := "tokA" }, timestamp := 0 } ∧
     ClientToken.getAccessToken none 1000 1000
        (Except.ok { payload := "tokB" })
        (ClientToken.getAccessToken none 0 0
          (Except.ok { payload := "tokA" })
          ClientToken.CacheMap.empty).2.1
      = (Except.ok { payload := "tokA" },
         (ClientToken.getAccessToken none 0 0
           (Except.ok { payload := "tokA" })
           ClientToken.CacheMap.empty).2.1, 0) ∧
     (ClientToken.getAccessToken none 540000 540000
        (Except.ok { payload := "tokB" })
        (ClientToken.getAccessToken none 0 0
          (Except.ok { payload := "tokA" })
          ClientToken.CacheMap.empty).2.1).1
        = Except.ok { payload := "tokB" } ∧
     (ClientToken.getAccessToken none 540000 540000
        (Except.ok { payload := "tokB" })
        (ClientToken.getAccessToken none 0 0
          (Except.ok { payload := "tokA" })
          ClientToken.CacheMap.empty).2.1).2.2 = 1 ∧
     (ClientToken.getAccessToken none 540000 540000
        (Except.ok { payload := "tokB" })
        (ClientToken.getAccessToken none 0 0
          (Except.ok { payload := "tokA" })
          ClientToken.CacheMap.empty).2.1).2.1
          ((none : Option String).getD "default")
        = some { data := { payload := "tokB" }, timestamp := 540000 }) :=
  ⟨rfl, by decide, by decide,
   C3_cache_ttl none { payload := "tokA" } { payload := "tokB" }
     0 1000 540000 540000 ClientToken.CacheMap.empty rfl
     (by decide) (by decide)⟩

/-- C7: in the credential broker, the recorded default provider is the first
successfully-configured provider in registration (insertion) order; `getToken`
with no name fails with the no-provider-configured error when the registry is
empty; `getToken` with a (non-empty) name that was never registered fails with
the provider-not-found error; and with only a misconfigured azure-speech
adapter, `getToken()` fails with the no-provider-configured error and the list
of available providers is empty. -/
theorem C7_broker_errors (specs : List ServerToken.ProviderSpec) (s : String)
    (hs : s.isEmpty = false) :
    ((ServerToken.initializeProviders specs).defaultProvider
      = ((specs.filter ServerToken.configuredOk).map
          ServerToken.ProviderSpec.name).head?) ∧
    ((ServerToken.initializeProviders specs).providers = [] →
      ServerToken.getToken (ServerToken.initializeProviders specs) none
        = Except.error ServerToken.TokenError.noProviderConfigured) ∧
    ((ServerToken.initializeProviders specs).providers.contains s = false →
      ServerToken.getToken (ServerToken.initializeProviders specs) (some s)
        = Except.error (ServerToken.TokenError.providerNotFound s
            (ServerToken.initializeProviders specs).providers)) ∧
    (∀ env ctor : Bool, (env && ctor) = false →
      ServerToken.getToken
          (ServerToken.initializeProviders
            [{ name := "azure-speech", envConfigured := env, ctorOk := ctor }])
          none
        = Except.error ServerToken.TokenError.noProviderConfigured ∧
      ServerToken.getAvailableProviders
          (ServerToken.initializeProviders
            [{ name := "azure-speech", envConfigured := env, ctorOk := ctor }])
        = []) := by
  obtain ⟨hp, hd⟩ := ServerToken.initializeProviders_spec specs
  refine ⟨hd, ?_, ?_, ?_⟩
  · intro hnil
    have hdef : (ServerToken.initializeProviders specs).defaultProvider
        = none := by
      rw [hd, ← hp, hnil]
      rfl
    simp [ServerToken.getToken, hdef]
  · intro hcon
    have hmem : s ∉ (ServerToken.initializeProviders specs).providers := by
      simpa using hcon
    simp [ServerToken.getToken, hs, hmem]
  · intro env ctor hec
    have hinit : ServerToken.initializeProviders
        [{ name := "azure-speech", envConfigured := env, ctorOk := ctor }]
        = { providers := [], defaultProvider := none } := by
      simp [ServerToken.initializeProviders, ServerToken.registerProvider, hec]
    rw [hinit]
    exact ⟨rfl, rfl⟩

/-- Witness for C7: a single azure-speech registration attempt with the
environment variables missing, queried for the default and for the
unregistered name "google-speech". -/
theorem C7_broker_errors_witness :
    ((("google-speech" : String).isEmpty) = false) ∧
    (((ServerToken.initializeProviders
        [{ name := "azure-speech", envConfigured := false, ctorOk := true }]
      ).defaultProvider
      = ((List.filter ServerToken.configuredOk
            [({ name := "azure-speech", envConfigured := false, ctorOk := true }
              : ServerToken.ProviderSpec)]).map
          ServerToken.ProviderSpec.name).head?) ∧
    ((ServerToken.initializeProviders
        [{ name := "azure-speech", envConfigured := false, ctorOk := true }]
      ).providers = [] →
      ServerToken.getToken
        (ServerToken.initializeProviders
          [{ name := "azure-speech", envConfigured := false, ctorOk := true }])
        none
        = Except.error ServerToken.TokenError.noProviderConfigured) ∧
    ((ServerToken.initializeProviders
        [{ name := "azure-speech", envConfigured := false, ctorOk := true }]
      ).providers.contains "google-speech" = false →
      ServerToken.getToken
        (ServerToken.initializeProviders
          [{ name := "azure-speech", envConfigured := false, ctorOk := true }])
        (some "google-speech")
        = Except.error (ServerToken.TokenError.providerNotFound "google-speech"
            (ServerToken.initializeProviders
              [{ name := "azure-speech", envConfigured := false,
                 ctorOk := true }]).providers)) ∧
    (∀ env ctor : Bool, (env && ctor) = false →
      ServerToken.getToken
          (ServerToken.initializeProviders
            [{ name := "azure-speech", envConfigured := env, ctorOk := ctor }])
          none
        = Except.error ServerToken.TokenError.noProviderConfigured ∧
      ServerToken.getAvailableProviders
          (ServerToken.initializeProviders
            [{ name := "azure-speech", envConfigured := env, ctorOk := ctor }])
        = [])) :=
  ⟨rfl, C7_broker_errors
    [{ name := "azure-speech", envConfigured := false, ctorOk := true }]
    "google-speech" rfl⟩

